import Mathlib

/-!
Shallow embedding of the AstroWound-MEASURE clinical decision-support core:
the comorbidity risk engine (risk rules, risk-flag generation, drug-class
safety queries), the analgesic recommendation engine (WHO-ladder based
recommendations and the procedural pain plan), and the safety/monitoring
module (monitoring plan, red flags, monitoring escalation predicate).

Numeric patient age and pain score are embedded as rationals.  Identifier
fields that the source fills with freshly generated random strings are
embedded by passing an explicit identifier supply (a function from the
emission index to a string); all other record fields follow the source.
Record fields of the source that no engine reads (timestamps, session ids,
display-only bookkeeping) are omitted from the embedded records.
-/

/-- Enumerated comorbidity tags, from the Comorbidity union type. -/
inductive Comorbidity
  | peptic_ulcer
  | ckd_stage_1
  | ckd_stage_2
  | ckd_stage_3a
  | ckd_stage_3b
  | ckd_stage_4
  | ckd_stage_5
  | liver_disease_mild
  | liver_disease_moderate
  | liver_disease_severe
  | heart_failure
  | ischemic_heart_disease
  | hypertension
  | diabetes
  | asthma
  | copd
  | pregnancy
  | lactation
  | opioid_tolerance
  | opioid_dependence
  | gi_bleed_history
  | coagulopathy
  | seizure_disorder
  | mental_health_disorder
  | respiratory_depression_risk
deriving DecidableEq, Repr

/-- String literal naming each comorbidity tag, as used by the source code
(the monitoring plan tests the tag text for the lead "ckd_"). -/
def Comorbidity.tagName : Comorbidity → String
  | .peptic_ulcer => "peptic_ulcer"
  | .ckd_stage_1 => "ckd_stage_1"
  | .ckd_stage_2 => "ckd_stage_2"
  | .ckd_stage_3a => "ckd_stage_3a"
  | .ckd_stage_3b => "ckd_stage_3b"
  | .ckd_stage_4 => "ckd_stage_4"
  | .ckd_stage_5 => "ckd_stage_5"
  | .liver_disease_mild => "liver_disease_mild"
  | .liver_disease_moderate => "liver_disease_moderate"
  | .liver_disease_severe => "liver_disease_severe"
  | .heart_failure => "heart_failure"
  | .ischemic_heart_disease => "ischemic_heart_disease"
  | .hypertension => "hypertension"
  | .diabetes => "diabetes"
  | .asthma => "asthma"
  | .copd => "copd"
  | .pregnancy => "pregnancy"
  | .lactation => "lactation"
  | .opioid_tolerance => "opioid_tolerance"
  | .opioid_dependence => "opioid_dependence"
  | .gi_bleed_history => "gi_bleed_history"
  | .coagulopathy => "coagulopathy"
  | .seizure_disorder => "seizure_disorder"
  | .mental_health_disorder => "mental_health_disorder"
  | .respiratory_depression_risk => "respiratory_depression_risk"

/-- Risk levels, total order info < caution < warning < contraindicated. -/
inductive RiskLevel
  | info
  | caution
  | warning
  | contraindicated
deriving DecidableEq, Repr

/-- Enumerated analgesic drug classes. -/
inductive AnalgesicClass
  | paracetamol
  | nsaid_non_selective
  | nsaid_cox2_selective
  | weak_opioid
  | strong_opioid
  | adjuvant_anticonvulsant
  | adjuvant_antidepressant
  | adjuvant_muscle_relaxant
  | topical_analgesic
  | topical_anesthetic
  | regional_anesthesia
  | anxiolytic
  | ketamine
  | nitrous_oxide
deriving DecidableEq, Repr

/-- Administration routes for analgesic recommendations. -/
inductive AnalgesicRoute
  | oral
  | sublingual
  | intravenous
  | intramuscular
  | subcutaneous
  | transdermal
  | topical
  | rectal
  | intranasal
  | inhalation
  | regional
deriving DecidableEq, Repr

/-- Pain severity bands. -/
inductive PainSeverity
  | none
  | mild
  | moderate
  | severe
deriving DecidableEq, Repr

/-- Pain type classification. -/
inductive PainType
  | nociceptive
  | neuropathic
  | inflammatory
  | ischemic
  | mixed
deriving DecidableEq, Repr

/-- Context in which the pain occurs. -/
inductive PainContext
  | rest
  | movement
  | procedural
deriving DecidableEq, Repr

/-- Patient age category. -/
inductive PatientCategory
  | adult
  | pediatric
  | elderly
  | neonate
deriving DecidableEq, Repr

/-- Procedure types for the procedural pain plan. -/
inductive ProcedureType
  | wound_dressing
  | burn_dressing
  | debridement
  | suturing
  | drain_removal
  | catheter_insertion
  | lumbar_puncture
  | bone_marrow_biopsy
  | chest_tube
  | central_line
  | other
deriving DecidableEq, Repr

/-- Severity tag of a comorbidity entry. -/
inductive EntrySeverity
  | mild
  | moderate
  | severe
deriving DecidableEq, Repr

/-- One comorbidity present in the patient, with optional qualifiers. -/
structure ComorbidityEntry where
  condition : Comorbidity
  severity : Option EntrySeverity := Option.none
  notes : Option String := Option.none
deriving DecidableEq, Repr

/-- Patient record (engine-relevant fields of PainPatientInfo). -/
structure PainPatientInfo where
  age : ℚ
  category : PatientCategory
deriving DecidableEq, Repr

/-- Pain assessment record (engine-relevant fields of
DressingPainAssessment). -/
structure DressingPainAssessment where
  score : ℚ
  maxScore : ℚ
  severity : PainSeverity
  painType : PainType
  painContext : PainContext
  location : String
  description : String
deriving DecidableEq, Repr

/-- Boolean test that the first list leads the second (element prefix). -/
def charsLead : List Char → List Char → Bool
  | [], _ => true
  | _ :: _, [] => false
  | a :: as, b :: bs => a == b && charsLead as bs

/-- Boolean test that the needle occurs contiguously inside the hay. -/
def charsHold : List Char → List Char → Bool
  | [], needle => needle.isEmpty
  | c :: t, needle => charsLead needle (c :: t) || charsHold t needle

/-- JS s.startsWith(lead) on the embedded strings. -/
def strStarts (s lead : String) : Bool :=
  charsLead lead.data s.data

/-- JS s.includes(sub) on the embedded strings. -/
def strHolds (s sub : String) : Bool :=
  charsHold s.data sub.data

/-- JS s.toLowerCase() (ASCII lowering, as used for the spasm check),
written over the character list of the string. -/
def lowerStr (s : String) : String :=
  ⟨s.data.map Char.toLower⟩

/-- Condition combination mode of a risk rule. -/
inductive CondLogic
  | any
  | all
deriving DecidableEq, Repr

/-- Comparison operator of an optional age condition on a risk rule. -/
inductive AgeOp
  | gt
  | lt
  | ge
  | le
deriving DecidableEq, Repr

/-- Optional age condition of a risk rule. -/
structure AgeCondition where
  operator : AgeOp
  value : ℚ
deriving DecidableEq, Repr

/-- Risk rule definition type. -/
structure RiskRule where
  conditions : List Comorbidity
  conditionLogic : CondLogic
  ageCondition : Option AgeCondition := Option.none
  level : RiskLevel
  category : String
  message : String
  affectedDrugClasses : List AnalgesicClass
  recommendation : String
deriving DecidableEq, Repr

/-- Clinical risk rules database (RISK_RULES), in catalog order. -/
def RISK_RULES : List RiskRule := [
  { conditions := [.peptic_ulcer, .gi_bleed_history],
    conditionLogic := .any,
    level := .contraindicated,
    category := "Gastrointestinal",
    message := "NSAIDs contraindicated due to GI risk",
    affectedDrugClasses := [.nsaid_non_selective, .nsaid_cox2_selective],
    recommendation := "Avoid all NSAIDs. Consider paracetamol as first-line. If NSAID essential, use COX-2 selective with PPI cover after specialist review." },
  { conditions := [.ckd_stage_3a, .ckd_stage_3b, .ckd_stage_4, .ckd_stage_5],
    conditionLogic := .any,
    level := .contraindicated,
    category := "Renal",
    message := "NSAIDs contraindicated in moderate-severe CKD",
    affectedDrugClasses := [.nsaid_non_selective, .nsaid_cox2_selective],
    recommendation := "Avoid all NSAIDs. Use paracetamol. Opioids require dose adjustment based on eGFR." },
  { conditions := [.ckd_stage_1, .ckd_stage_2],
    conditionLogic := .any,
    level := .caution,
    category := "Renal",
    message := "Use NSAIDs with caution in early CKD",
    affectedDrugClasses := [.nsaid_non_selective, .nsaid_cox2_selective],
    recommendation := "Short-term use only. Monitor renal function. Ensure adequate hydration." },
  { conditions := [.ckd_stage_4, .ckd_stage_5],
    conditionLogic := .any,
    level := .warning,
    category := "Renal",
    message := "Opioid dose adjustment required in severe CKD",
    affectedDrugClasses := [.weak_opioid, .strong_opioid],
    recommendation := "Reduce opioid doses by 50-75%. Avoid morphine (active metabolites accumulate). Prefer fentanyl or hydromorphone." },
  { conditions := [.liver_disease_severe],
    conditionLogic := .any,
    level := .warning,
    category := "Hepatic",
    message := "Paracetamol dose reduction required in severe liver disease",
    affectedDrugClasses := [.paracetamol],
    recommendation := "Maximum 2g/day paracetamol. Avoid in acute liver failure. Monitor LFTs." },
  { conditions := [.liver_disease_moderate, .liver_disease_severe],
    conditionLogic := .any,
    level := .warning,
    category := "Hepatic",
    message := "Opioid dose adjustment required in liver disease",
    affectedDrugClasses := [.weak_opioid, .strong_opioid],
    recommendation := "Reduce opioid doses. Avoid codeine and tramadol (unpredictable metabolism). Increase dosing interval." },
  { conditions := [.heart_failure, .ischemic_heart_disease],
    conditionLogic := .any,
    level := .contraindicated,
    category := "Cardiovascular",
    message := "NSAIDs contraindicated in heart failure and IHD",
    affectedDrugClasses := [.nsaid_non_selective, .nsaid_cox2_selective],
    recommendation := "Avoid all NSAIDs due to cardiovascular and fluid retention risks. Use paracetamol and opioids if needed." },
  { conditions := [.hypertension],
    conditionLogic := .any,
    level := .caution,
    category := "Cardiovascular",
    message := "NSAIDs may worsen hypertension",
    affectedDrugClasses := [.nsaid_non_selective, .nsaid_cox2_selective],
    recommendation := "Monitor blood pressure if NSAID used. Prefer short-term use. Consider paracetamol first-line." },
  { conditions := [.copd, .respiratory_depression_risk],
    conditionLogic := .any,
    level := .warning,
    category := "Respiratory",
    message := "Increased respiratory depression risk with opioids",
    affectedDrugClasses := [.weak_opioid, .strong_opioid, .anxiolytic],
    recommendation := "Use lowest effective opioid dose. Start low, titrate slowly. Continuous monitoring recommended. Avoid benzodiazepines if possible." },
  { conditions := [.asthma],
    conditionLogic := .any,
    level := .caution,
    category := "Respiratory",
    message := "Risk of NSAID-induced bronchospasm",
    affectedDrugClasses := [.nsaid_non_selective],
    recommendation := "Avoid in aspirin-sensitive asthma. Use with caution otherwise. COX-2 selective may be safer alternative." },
  { conditions := [.pregnancy],
    conditionLogic := .any,
    level := .contraindicated,
    category := "Pregnancy",
    message := "NSAIDs contraindicated in pregnancy (especially third trimester)",
    affectedDrugClasses := [.nsaid_non_selective, .nsaid_cox2_selective],
    recommendation := "Avoid NSAIDs. Paracetamol is preferred analgesic. Opioids only under specialist supervision." },
  { conditions := [.pregnancy],
    conditionLogic := .any,
    level := .warning,
    category := "Pregnancy",
    message := "Opioid use in pregnancy requires specialist supervision",
    affectedDrugClasses := [.weak_opioid, .strong_opioid],
    recommendation := "Short-term use only. Monitor for neonatal abstinence syndrome if used near delivery. Avoid codeine." },
  { conditions := [.lactation],
    conditionLogic := .any,
    level := .caution,
    category := "Lactation",
    message := "Analgesic choice requires consideration of breastfeeding",
    affectedDrugClasses := [.weak_opioid, .strong_opioid, .nsaid_non_selective],
    recommendation := "Paracetamol and ibuprofen are compatible with breastfeeding. Avoid codeine. Use lowest effective dose of any analgesic." },
  { conditions := [.opioid_tolerance],
    conditionLogic := .any,
    level := .info,
    category := "Pain History",
    message := "Patient is opioid tolerant - higher doses may be required",
    affectedDrugClasses := [.weak_opioid, .strong_opioid],
    recommendation := "Calculate opioid requirement based on current daily dose. May need higher starting doses for acute pain. Multimodal analgesia recommended." },
  { conditions := [.opioid_dependence],
    conditionLogic := .any,
    level := .warning,
    category := "Pain History",
    message := "History of opioid dependence - careful opioid management required",
    affectedDrugClasses := [.weak_opioid, .strong_opioid],
    recommendation := "Develop clear pain management plan. Consider addiction medicine consultation. Maximize non-opioid strategies. If opioids needed, use structured approach with defined endpoints." },
  { conditions := [.coagulopathy],
    conditionLogic := .any,
    level := .contraindicated,
    category := "Hematologic",
    message := "NSAIDs contraindicated with coagulopathy",
    affectedDrugClasses := [.nsaid_non_selective],
    recommendation := "Avoid non-selective NSAIDs. COX-2 selective may be considered with caution. Avoid intramuscular injections." },
  { conditions := [.seizure_disorder],
    conditionLogic := .any,
    level := .contraindicated,
    category := "Neurological",
    message := "Tramadol contraindicated in seizure disorder",
    affectedDrugClasses := [.weak_opioid],
    recommendation := "Avoid tramadol (lowers seizure threshold). Consider other opioids if needed. Gabapentinoids may be useful adjuvants." },
  { conditions := [.mental_health_disorder],
    conditionLogic := .any,
    level := .caution,
    category := "Psychiatric",
    message := "Increased risk of opioid misuse in mental health disorders",
    affectedDrugClasses := [.weak_opioid, .strong_opioid],
    recommendation := "Careful assessment and monitoring. Defined treatment duration. Consider non-opioid strategies. Liaise with mental health team if needed." }
]

/-- Output flag of the comorbidity engine, identifier attached. -/
structure RiskFlag where
  id : String
  level : RiskLevel
  category : String
  message : String
  affectedDrugClasses : List AnalgesicClass
  recommendation : String
deriving DecidableEq, Repr

/-- Identifier-free part of a risk flag (the clinically meaningful tuple). -/
structure RiskFlagData where
  level : RiskLevel
  category : String
  message : String
  affectedDrugClasses : List AnalgesicClass
  recommendation : String
deriving DecidableEq, Repr

/-- Strip the generated identifier from a risk flag. -/
def RiskFlag.toData (f : RiskFlag) : RiskFlagData :=
  { level := f.level, category := f.category, message := f.message,
    affectedDrugClasses := f.affectedDrugClasses,
    recommendation := f.recommendation }

/-- Attach identifiers from a supply to flag data, by emission index
(the source calls crypto.randomUUID() once per emitted flag). -/
def attachIds (ids : Nat → String) : Nat → List RiskFlagData → List RiskFlag
  | _, [] => []
  | n, d :: t =>
    { id := ids n, level := d.level, category := d.category,
      message := d.message, affectedDrugClasses := d.affectedDrugClasses,
      recommendation := d.recommendation } :: attachIds ids (n + 1) t

/-- Rule match test: the any/all condition logic, conjoined with the
optional age comparison, exactly as in the generateRiskFlags loop. -/
def ruleMatches (rule : RiskRule) (patientConditions : List Comorbidity)
    (patient : PainPatientInfo) : Bool :=
  let base :=
    match rule.conditionLogic with
    | .any => rule.conditions.any (fun c => patientConditions.contains c)
    | .all => rule.conditions.all (fun c => patientConditions.contains c)
  match rule.ageCondition with
  | Option.none => base
  | Option.some ac =>
    base && (match ac.operator with
      | .gt => decide (patient.age > ac.value)
      | .lt => decide (patient.age < ac.value)
      | .ge => decide (patient.age ≥ ac.value)
      | .le => decide (patient.age ≤ ac.value))

/-- Synthesized elderly age flag data. -/
def elderlyFlagData : RiskFlagData :=
  { level := .caution,
    category := "Age",
    message := "Elderly patient - consider age-related pharmacokinetic changes",
    affectedDrugClasses := [.nsaid_non_selective, .nsaid_cox2_selective, .weak_opioid, .strong_opioid],
    recommendation := "Start low, go slow with all analgesics. Increased sensitivity to opioids. Higher NSAID GI/CV/renal risks. Consider reduced doses." }

/-- Synthesized pediatric age flag data. -/
def pediatricFlagData : RiskFlagData :=
  { level := .info,
    category := "Age",
    message := "Pediatric patient - weight-based dosing required",
    affectedDrugClasses := [.paracetamol, .nsaid_non_selective, .weak_opioid, .strong_opioid],
    recommendation := "All doses must be calculated per kilogram. Avoid codeine in children. Use age-appropriate formulations." }

/-- Synthesized neonate age flag data. -/
def neonateFlagData : RiskFlagData :=
  { level := .warning,
    category := "Age",
    message := "Neonate - specialist pain management required",
    affectedDrugClasses := [.paracetamol, .weak_opioid, .strong_opioid],
    recommendation := "Neonatal-specific dosing protocols required. Immature hepatic and renal function. Consider non-pharmacological measures (sucrose, swaddling, skin-to-skin)." }

/-- Identifier-free risk-flag generation: matched catalog rules in order,
then the synthesized age flags (generateRiskFlags minus the random ids). -/
def generateRiskFlagsData (comorbidities : List ComorbidityEntry)
    (patient : PainPatientInfo) : List RiskFlagData :=
  let patientConditions := comorbidities.map (fun c => c.condition)
  ((RISK_RULES.filter (fun rule => ruleMatches rule patientConditions patient)).map
    (fun rule =>
      { level := rule.level, category := rule.category, message := rule.message,
        affectedDrugClasses := rule.affectedDrugClasses,
        recommendation := rule.recommendation }))
  ++ (if patient.category == PatientCategory.elderly || decide (patient.age ≥ 65)
      then [elderlyFlagData] else [])
  ++ (if patient.category == PatientCategory.pediatric
      then [pediatricFlagData] else [])
  ++ (if patient.category == PatientCategory.neonate
      then [neonateFlagData] else [])

/-- Generate risk flags based on patient comorbidities (the identifier of
each emitted flag comes from the supplied identifier source). -/
def generateRiskFlags (ids : Nat → String) (comorbidities : List ComorbidityEntry)
    (patient : PainPatientInfo) : List RiskFlag :=
  attachIds ids 0 (generateRiskFlagsData comorbidities patient)

/-- Insertion into a JS Set, preserving first-insertion order. -/
def insertUniq (acc : List AnalgesicClass) (c : AnalgesicClass) : List AnalgesicClass :=
  if acc.contains c then acc else acc ++ [c]

/-- Get all contraindicated drug classes based on risk flags. -/
def getContraindicatedClasses (flags : List RiskFlag) : List AnalgesicClass :=
  flags.foldl
    (fun acc f =>
      if f.level == RiskLevel.contraindicated
      then f.affectedDrugClasses.foldl insertUniq acc
      else acc)
    []

/-- Get classes requiring caution based on risk flags. -/
def getCautionClasses (flags : List RiskFlag) : List AnalgesicClass :=
  flags.foldl
    (fun acc f =>
      if f.level == RiskLevel.caution || f.level == RiskLevel.warning
      then f.affectedDrugClasses.foldl insertUniq acc
      else acc)
    []

/-- Index of a risk level in the severity order (levels.indexOf). -/
def levelIdx : RiskLevel → Nat
  | .info => 0
  | .caution => 1
  | .warning => 2
  | .contraindicated => 3

/-- Result record of checkDrugClassSafety. -/
structure SafetyCheck where
  safe : Bool
  level : RiskLevel
  warnings : List String
deriving DecidableEq, Repr

/-- Check if a specific drug class is safe for the patient. -/
def checkDrugClassSafety (drugClass : AnalgesicClass) (flags : List RiskFlag) :
    SafetyCheck :=
  let relevantFlags := flags.filter (fun f => f.affectedDrugClasses.contains drugClass)
  if relevantFlags.isEmpty then
    { safe := true, level := RiskLevel.info, warnings := [] }
  else
    let highestLevel :=
      relevantFlags.foldl
        (fun h f => if levelIdx f.level > levelIdx h then f.level else h)
        RiskLevel.info
    { safe := highestLevel != RiskLevel.contraindicated,
      level := highestLevel,
      warnings := relevantFlags.map (fun f => f.message) }

/-- Suitability qualifier of an analgesic recommendation. -/
inductive Suitability
  | recommended
  | consider
  | caution
  | avoid
  | contraindicated
deriving DecidableEq, Repr

/-- Analgesic recommendation record. -/
structure AnalgesicRecommendation where
  cls : AnalgesicClass
  suitability : Suitability
  routes : List AnalgesicRoute
  rationale : String
  doseAdjustment : Option String := Option.none
  monitoringRequired : Option (List String) := Option.none
deriving DecidableEq, Repr

/-- WHO Ladder step determination. -/
def getWHOStep : PainSeverity → Nat
  | .none => 1
  | .mild => 1
  | .moderate => 2
  | .severe => 3

/-- Get pain severity from numeric score. -/
def getPainSeverity (score : ℚ) : PainSeverity :=
  if score = 0 then .none
  else if score ≤ 3 then .mild
  else if score ≤ 6 then .moderate
  else .severe

/-- Separator used when the source joins warning texts. -/
def sepDot : String := ". "

/-- JS warnings.join on the dose-adjustment texts. -/
def joinWarnings (ws : List String) : String :=
  String.intercalate sepDot ws

/-- Needle of the muscle-spasm description test. -/
def spasmText : String := "spasm"

/-- Get applicable non-pharmacological interventions. -/
def getApplicableNonPharmacological (assessment : DressingPainAssessment)
    (patient : PainPatientInfo) : List String :=
  ["Positioning and comfort measures", "Relaxation and breathing exercises"]
  ++ (if patient.category == PatientCategory.pediatric then
        ["Distraction techniques", "Play therapy (pediatric)", "Parental presence (pediatric)"]
      else if patient.category == PatientCategory.neonate then
        ["Sucrose solution (neonatal)", "Swaddling (neonatal)", "Skin-to-skin contact (neonatal)"]
      else
        ["Distraction techniques", "Music therapy", "Guided imagery"])
  ++ (if (assessment.painType == PainType.nociceptive
          || assessment.painType == PainType.inflammatory)
        && assessment.painContext != PainContext.procedural then
        ["Cold therapy / cryotherapy", "Heat therapy"]
      else [])
  ++ (if assessment.painType == PainType.neuropathic then
        ["TENS (Transcutaneous Electrical Nerve Stimulation)"]
      else [])

/-- Result record of generateAnalgesicRecommendations. -/
structure AnalgesicPlan where
  primaryRecommendations : List AnalgesicRecommendation
  adjunctRecommendations : List AnalgesicRecommendation
  contraindicatedClasses : List AnalgesicClass
  nonPharmacological : List String
deriving DecidableEq, Repr

/-- Step-1 block of the primary recommendations: paracetamol always and
the non-selective NSAID when not contraindicated and the pain type fits. -/
def step1Recs (assessment : DressingPainAssessment) (riskFlags : List RiskFlag) :
    List AnalgesicRecommendation :=
  let contraindicatedClasses := getContraindicatedClasses riskFlags
  let paracetamolSafety := checkDrugClassSafety AnalgesicClass.paracetamol riskFlags
  let nsaidSafety := checkDrugClassSafety AnalgesicClass.nsaid_non_selective riskFlags
  [{ cls := AnalgesicClass.paracetamol,
     suitability := if paracetamolSafety.safe then .recommended else .caution,
     routes := [.oral, .intravenous, .rectal],
     rationale := "First-line analgesic for all pain levels. Safe in most patients.",
     doseAdjustment := if paracetamolSafety.warnings.length > 0
       then Option.some (joinWarnings paracetamolSafety.warnings) else Option.none,
     monitoringRequired := if paracetamolSafety.level != RiskLevel.info
       then Option.some ["Liver function if prolonged use"] else Option.none }]
  ++ (if !(contraindicatedClasses.contains AnalgesicClass.nsaid_non_selective)
        && (assessment.painType == PainType.inflammatory
            || assessment.painType == PainType.nociceptive) then
      [{ cls := AnalgesicClass.nsaid_non_selective,
         suitability := if nsaidSafety.level == RiskLevel.info then .recommended
           else if nsaidSafety.level == RiskLevel.caution then .consider else .caution,
         routes := [.oral, .intravenous, .topical],
         rationale := "Effective for inflammatory and nociceptive pain. Consider GI protection.",
         doseAdjustment := if nsaidSafety.warnings.length > 0
           then Option.some (joinWarnings nsaidSafety.warnings) else Option.none,
         monitoringRequired := Option.some ["Renal function", "GI symptoms", "Blood pressure"] }]
     else [])

/-- Step-2 block of the primary recommendations: weak opioid unless
contraindicated. -/
def step2Recs (riskFlags : List RiskFlag) : List AnalgesicRecommendation :=
  let contraindicatedClasses := getContraindicatedClasses riskFlags
  let weakOpioidSafety := checkDrugClassSafety AnalgesicClass.weak_opioid riskFlags
  if !(contraindicatedClasses.contains AnalgesicClass.weak_opioid) then
    [{ cls := AnalgesicClass.weak_opioid,
       suitability := if weakOpioidSafety.level == RiskLevel.info then .recommended
         else if weakOpioidSafety.level == RiskLevel.caution then .consider else .caution,
       routes := [.oral, .intravenous],
       rationale := "Step 2 WHO ladder for moderate pain not controlled by non-opioids alone.",
       doseAdjustment := if weakOpioidSafety.warnings.length > 0
         then Option.some (joinWarnings weakOpioidSafety.warnings) else Option.none,
       monitoringRequired := Option.some ["Sedation level", "Respiratory rate", "Constipation", "Nausea"] }]
  else []

/-- Step-3 block of the primary recommendations: strong opioid unless
contraindicated, with the asymmetric suitability mapping. -/
def step3Recs (riskFlags : List RiskFlag) : List AnalgesicRecommendation :=
  let contraindicatedClasses := getContraindicatedClasses riskFlags
  let strongOpioidSafety := checkDrugClassSafety AnalgesicClass.strong_opioid riskFlags
  if !(contraindicatedClasses.contains AnalgesicClass.strong_opioid) then
    [{ cls := AnalgesicClass.strong_opioid,
       suitability := if strongOpioidSafety.level == RiskLevel.info then .recommended
         else if strongOpioidSafety.level == RiskLevel.warning then .caution else .consider,
       routes := [.oral, .intravenous, .subcutaneous, .transdermal],
       rationale := "Step 3 WHO ladder for severe pain. Titrate to effect.",
       doseAdjustment := if strongOpioidSafety.warnings.length > 0
         then Option.some (joinWarnings strongOpioidSafety.warnings) else Option.none,
       monitoringRequired := Option.some ["Sedation scoring", "Respiratory rate q1-4h", "Pain score", "Side effects"] }]
  else []

/-- Generate analgesic recommendations based on pain assessment and risk
flags: cumulative WHO-ladder steps 1-3 for the primary list, then the
adjuncts. -/
def generateAnalgesicRecommendations (assessment : DressingPainAssessment)
    (riskFlags : List RiskFlag) (patient : PainPatientInfo) : AnalgesicPlan :=
  let contraindicatedClasses := getContraindicatedClasses riskFlags
  let whoStep := getWHOStep assessment.severity
  let primaryRecommendations : List AnalgesicRecommendation :=
    (if whoStep ≥ 1 then step1Recs assessment riskFlags else [])
    ++ (if whoStep ≥ 2 then step2Recs riskFlags else [])
    ++ (if whoStep ≥ 3 then step3Recs riskFlags else [])
  let adjunctRecommendations : List AnalgesicRecommendation :=
    (if assessment.painType == PainType.neuropathic
        || assessment.painType == PainType.mixed then
      [{ cls := AnalgesicClass.adjuvant_anticonvulsant,
         suitability := .consider,
         routes := [.oral],
         rationale := "First-line adjuvant for neuropathic pain component.",
         monitoringRequired := Option.some ["Sedation", "Dizziness", "Peripheral edema"] },
       { cls := AnalgesicClass.adjuvant_antidepressant,
         suitability := .consider,
         routes := [.oral],
         rationale := "Alternative or addition for neuropathic pain.",
         monitoringRequired := Option.some ["Anticholinergic effects", "Cardiac effects (TCAs)"] }]
     else [])
    ++ (if assessment.location != ""
          && (assessment.painType == PainType.nociceptive
              || assessment.painType == PainType.inflammatory) then
        [{ cls := AnalgesicClass.topical_analgesic,
           suitability := .consider,
           routes := [.topical],
           rationale := "Topical option for localized pain with minimal systemic effects.",
           monitoringRequired := Option.some ["Local skin reaction"] }]
       else [])
    ++ (if assessment.painType == PainType.nociceptive
          && strHolds (lowerStr assessment.description) spasmText then
        [{ cls := AnalgesicClass.adjuvant_muscle_relaxant,
           suitability := .consider,
           routes := [.oral],
           rationale := "May help if muscle spasm component present.",
           monitoringRequired := Option.some ["Sedation", "Weakness"] }]
       else [])
  { primaryRecommendations := primaryRecommendations,
    adjunctRecommendations := adjunctRecommendations,
    contraindicatedClasses := contraindicatedClasses,
    nonPharmacological := getApplicableNonPharmacological assessment patient }

/-- String form of a pain severity, as interpolated by the source. -/
def PainSeverity.text : PainSeverity → String
  | .none => "none"
  | .mild => "mild"
  | .moderate => "moderate"
  | .severe => "severe"

/-- Pre-emptive analgesia block of the procedural plan. -/
structure PreEmptiveAnalgesia where
  required : Bool
  timing : String
  recommendations : List AnalgesicRecommendation
deriving DecidableEq, Repr

/-- Intra-procedural analgesia block of the procedural plan. -/
structure IntraProceduralAnalgesia where
  topical : Bool
  topicalAgent : Option String
  regional : Bool
  regionalTechnique : Option String
  systemic : Bool
  systemicOptions : List AnalgesicRecommendation
deriving DecidableEq, Repr

/-- Anxiolysis block of the procedural plan. -/
structure AnxiolysisBlock where
  recommended : Bool
  rationale : Option String
deriving DecidableEq, Repr

/-- Procedural pain plan record. -/
structure ProceduralPainPlan where
  procedureType : ProcedureType
  procedureDescription : String
  anticipatedPainLevel : PainSeverity
  preEmptiveAnalgesia : PreEmptiveAnalgesia
  intraProceduralAnalgesia : IntraProceduralAnalgesia
  anxiolysis : AnxiolysisBlock
  nonPharmacological : List String
  monitoringDuring : List String
  postProcedureFollow : List String
deriving DecidableEq, Repr

/-- Generate procedural pain plan. -/
def generateProceduralPainPlan (procedureType : ProcedureType)
    (procedureDescription : String) (baselineAssessment : DressingPainAssessment)
    (riskFlags : List RiskFlag) (patient : PainPatientInfo) : ProceduralPainPlan :=
  let contraindicatedClasses := getContraindicatedClasses riskFlags
  let anticipatedPainLevel : PainSeverity :=
    if procedureType == ProcedureType.burn_dressing
        || procedureType == ProcedureType.debridement
        || procedureType == ProcedureType.chest_tube
        || procedureType == ProcedureType.bone_marrow_biopsy then
      .severe
    else if procedureType == ProcedureType.drain_removal
        || procedureType == ProcedureType.catheter_insertion then
      .mild
    else
      .moderate
  let preEmptiveRecommendations : List AnalgesicRecommendation :=
    [{ cls := AnalgesicClass.paracetamol,
       suitability := .recommended,
       routes := [.oral, .intravenous],
       rationale := "Pre-emptive non-opioid analgesia" }]
    ++ (if anticipatedPainLevel == PainSeverity.moderate
          || anticipatedPainLevel == PainSeverity.severe then
        (if !(contraindicatedClasses.contains AnalgesicClass.strong_opioid) then
          [{ cls := if anticipatedPainLevel == PainSeverity.severe
               then AnalgesicClass.strong_opioid else AnalgesicClass.weak_opioid,
             suitability := .recommended,
             routes := [.oral, .intravenous],
             rationale := "Pre-emptive opioid for anticipated "
               ++ anticipatedPainLevel.text ++ " procedural pain" }]
         else [])
       else [])
  let systemicOptions : List AnalgesicRecommendation :=
    if anticipatedPainLevel == PainSeverity.severe then
      (if !(contraindicatedClasses.contains AnalgesicClass.strong_opioid) then
        [{ cls := AnalgesicClass.strong_opioid,
           suitability := .recommended,
           routes := [.intravenous],
           rationale := "IV opioid for severe procedural pain" }]
       else [])
      ++ [{ cls := AnalgesicClass.ketamine,
            suitability := .consider,
            routes := [.intravenous, .intranasal],
            rationale := "Sub-dissociative ketamine for severe procedural pain" },
          { cls := AnalgesicClass.nitrous_oxide,
            suitability := .consider,
            routes := [.inhalation],
            rationale := "Inhaled analgesia for procedure-related anxiety and pain" }]
    else []
  let preEmptiveTiming := "30-60 minutes pre-procedure (oral) or 15-30 minutes (IV)"
  let useTopical := procedureType == ProcedureType.wound_dressing
    || procedureType == ProcedureType.burn_dressing
    || procedureType == ProcedureType.debridement
    || procedureType == ProcedureType.suturing
    || procedureType == ProcedureType.catheter_insertion
  let considerRegional := procedureType == ProcedureType.debridement
    || procedureType == ProcedureType.bone_marrow_biopsy
    || procedureType == ProcedureType.chest_tube
    || procedureType == ProcedureType.central_line
    || procedureType == ProcedureType.suturing
  let anxiolysisRecommended := anticipatedPainLevel == PainSeverity.severe
    || procedureType == ProcedureType.bone_marrow_biopsy
    || procedureType == ProcedureType.lumbar_puncture
  let monitoringDuring : List String :=
    ["Pain score at regular intervals"]
    ++ (if anticipatedPainLevel == PainSeverity.severe
          || systemicOptions.any (fun o => o.cls == AnalgesicClass.strong_opioid) then
        ["Sedation level", "Respiratory rate", "Oxygen saturation"]
       else [])
    ++ (if systemicOptions.any (fun o => o.cls == AnalgesicClass.ketamine) then
        ["Blood pressure", "Emergence phenomena"]
       else [])
  let postProcedureFollow : List String :=
    ["Pain score 30 minutes post-procedure",
     "Assess for adequate analgesia",
     "Document analgesic effectiveness"]
    ++ (if anticipatedPainLevel == PainSeverity.severe then
        ["Continue monitoring for 2-4 hours post-procedure", "PRN analgesia availability"]
       else [])
  let nonPharmacological :=
    getApplicableNonPharmacological baselineAssessment patient
    ++ ["Explanation and preparation before procedure",
        "Minimize procedure duration where possible"]
  { procedureType := procedureType,
    procedureDescription := procedureDescription,
    anticipatedPainLevel := anticipatedPainLevel,
    preEmptiveAnalgesia :=
      { required := true,
        timing := preEmptiveTiming,
        recommendations := preEmptiveRecommendations },
    intraProceduralAnalgesia :=
      { topical := useTopical,
        topicalAgent := if useTopical
          then Option.some "Lidocaine gel/EMLA cream applied 30-60 min before"
          else Option.none,
        regional := considerRegional,
        regionalTechnique := if considerRegional
          then Option.some "Local infiltration or regional block as appropriate"
          else Option.none,
        systemic := anticipatedPainLevel != PainSeverity.mild,
        systemicOptions := systemicOptions },
    anxiolysis :=
      { recommended := anxiolysisRecommended,
        rationale := if anxiolysisRecommended
          then Option.some "Procedure-related anxiety may exacerbate pain perception"
          else Option.none },
    nonPharmacological := nonPharmacological,
    monitoringDuring := monitoringDuring,
    postProcedureFollow := postProcedureFollow }

/-- Lead text of the chronic-kidney-disease tags. -/
def ckdLead : String := "ckd_"

/-- Sedation sub-block of the monitoring plan. -/
structure SedationMonitoring where
  required : Bool
  frequency : String
  scale : String
deriving DecidableEq, Repr

/-- Respiratory sub-block of the monitoring plan. -/
structure RespiratoryMonitoring where
  required : Bool
  frequency : String
  parameters : List String
deriving DecidableEq, Repr

/-- Cardiovascular sub-block of the monitoring plan. -/
structure CardiovascularMonitoring where
  required : Bool
  frequency : String
  parameters : List String
deriving DecidableEq, Repr

/-- Renal sub-block of the monitoring plan. -/
structure RenalMonitoring where
  required : Bool
  frequency : String
  tests : List String
deriving DecidableEq, Repr

/-- GI-protection sub-block of the monitoring plan. -/
structure GIProtection where
  required : Bool
  recommendations : List String
deriving DecidableEq, Repr

/-- Monitoring plan record. -/
structure MonitoringPlan where
  sedationMonitoring : SedationMonitoring
  respiratoryMonitoring : RespiratoryMonitoring
  cardiovascularMonitoring : CardiovascularMonitoring
  renalMonitoring : RenalMonitoring
  giProtection : GIProtection
  otherMonitoring : List String
deriving DecidableEq, Repr

/-- Generate comprehensive monitoring plan based on analgesic
recommendations and patient factors (the risk-flag argument is accepted and
unused, as in the source). -/
def generateMonitoringPlan (recommendations : List AnalgesicRecommendation)
    (riskFlags : List RiskFlag) (patient : PainPatientInfo)
    (comorbidities : List ComorbidityEntry) : MonitoringPlan :=
  let _ := riskFlags
  let hasOpioids := recommendations.any (fun r =>
    r.cls == AnalgesicClass.weak_opioid || r.cls == AnalgesicClass.strong_opioid)
  let hasStrongOpioids := recommendations.any (fun r => r.cls == AnalgesicClass.strong_opioid)
  let hasNSAIDs := recommendations.any (fun r =>
    r.cls == AnalgesicClass.nsaid_non_selective || r.cls == AnalgesicClass.nsaid_cox2_selective)
  let hasKetamine := recommendations.any (fun r => r.cls == AnalgesicClass.ketamine)
  let hasAnxiolytics := recommendations.any (fun r => r.cls == AnalgesicClass.anxiolytic)
  let hasRenalRisk := comorbidities.any (fun c => strStarts c.condition.tagName ckdLead)
  let hasRespiratoryRisk := comorbidities.any (fun c =>
    c.condition == Comorbidity.copd || c.condition == Comorbidity.respiratory_depression_risk)
  let hasCardiovascularRisk := comorbidities.any (fun c =>
    c.condition == Comorbidity.heart_failure || c.condition == Comorbidity.ischemic_heart_disease)
  let hasGIRisk := comorbidities.any (fun c =>
    c.condition == Comorbidity.peptic_ulcer || c.condition == Comorbidity.gi_bleed_history)
  let isElderly := patient.category == PatientCategory.elderly || decide (patient.age ≥ 65)
  { sedationMonitoring :=
      { required := hasOpioids || hasAnxiolytics || hasKetamine,
        frequency := if hasStrongOpioids || hasKetamine
          then "Every 1 hour for first 4 hours, then every 2-4 hours"
          else "Every 4 hours",
        scale := "Pasero Opioid-Induced Sedation Scale (POSS) or equivalent" },
    respiratoryMonitoring :=
      { required := hasOpioids || hasKetamine || hasRespiratoryRisk,
        frequency := if hasStrongOpioids || hasRespiratoryRisk
          then "Every 1-2 hours initially, then every 4 hours"
          else "Every 4 hours",
        parameters :=
          ["Respiratory rate", "Oxygen saturation (SpO2)"]
          ++ (if hasStrongOpioids then ["End-tidal CO2 if available"] else []) },
    cardiovascularMonitoring :=
      { required := hasNSAIDs || hasCardiovascularRisk || hasKetamine,
        frequency := "Every 4-6 hours or as per unit protocol",
        parameters :=
          ["Blood pressure", "Heart rate"]
          ++ (if hasKetamine then ["Continuous during ketamine administration"] else []) },
    renalMonitoring :=
      { required := hasNSAIDs || hasRenalRisk,
        frequency := if hasRenalRisk
          then "Daily during acute phase"
          else "Every 2-3 days if prolonged NSAID use",
        tests := ["Serum creatinine", "eGFR", "Urine output if indicated"] },
    giProtection :=
      { required := hasNSAIDs || hasGIRisk,
        recommendations :=
          (if hasNSAIDs then
            ["Consider PPI co-prescription",
             "Monitor for GI symptoms (dyspepsia, abdominal pain, bleeding)"]
           else [])
          ++ (if hasOpioids then
              ["Prescribe laxative prophylaxis with opioids",
               "Antiemetic PRN for opioid-induced nausea"]
             else []) },
    otherMonitoring :=
      (if hasOpioids then
        ["Pain score assessment at regular intervals",
         "Assess for opioid side effects (nausea, constipation, pruritus)"]
       else [])
      ++ (if hasStrongOpioids && isElderly then
          ["Increased frequency of cognitive assessment", "Falls risk assessment"]
         else [])
      ++ (if hasKetamine then
          ["Monitor for emergence phenomena (vivid dreams, hallucinations)",
           "Assess for nystagmus"]
         else [])
      ++ (if recommendations.any (fun r => r.cls == AnalgesicClass.adjuvant_anticonvulsant) then
          ["Monitor for dizziness and sedation", "Assess for peripheral edema"]
         else []) }

/-- Severity of a red flag. -/
inductive RedFlagSeverity
  | warning
  | critical
deriving DecidableEq, Repr

/-- Red-flag alert record, identifier attached. -/
structure RedFlag where
  id : String
  severity : RedFlagSeverity
  title : String
  description : String
  action : String
deriving DecidableEq, Repr

/-- Identifier-free part of a red flag. -/
structure RedFlagData where
  severity : RedFlagSeverity
  title : String
  description : String
  action : String
deriving DecidableEq, Repr

/-- Strip the generated identifier from a red flag. -/
def RedFlag.toData (f : RedFlag) : RedFlagData :=
  { severity := f.severity, title := f.title, description := f.description,
    action := f.action }

/-- Attach identifiers from a supply to red-flag data, by emission index. -/
def attachRedIds (ids : Nat → String) : Nat → List RedFlagData → List RedFlag
  | _, [] => []
  | n, d :: t =>
    { id := ids n, severity := d.severity, title := d.title,
      description := d.description, action := d.action } :: attachRedIds ids (n + 1) t

/-- Separator used when the source joins contraindication messages. -/
def sepSemi : String := "; "

/-- Data of the unconditional escalating-pain red flag. -/
def escalatingFlagData : RedFlagData :=
  { severity := .critical,
    title := "Escalating Pain Despite Treatment",
    description := "If pain escalates despite analgesic treatment, this may indicate treatment failure or underlying pathology",
    action := "Reassess for underlying cause. Consider dose adjustment, alternative agents, or specialist review." }

/-- Data of the severe-pain red flag. -/
def severePainFlagData : RedFlagData :=
  { severity := .warning,
    title := "Severe Pain",
    description := "Patient has severe pain requiring prompt and effective analgesia",
    action := "Ensure adequate analgesia is administered promptly. Reassess frequently." }

/-- Identifier-free red-flag generation, in the source's emission order. -/
def generateRedFlagsData (assessment : DressingPainAssessment)
    (recommendations : List AnalgesicRecommendation) (riskFlags : List RiskFlag)
    (patient : PainPatientInfo) : List RedFlagData :=
  let hasOpioids := recommendations.any (fun r =>
    r.cls == AnalgesicClass.weak_opioid || r.cls == AnalgesicClass.strong_opioid)
  let hasNSAIDs := recommendations.any (fun r =>
    r.cls == AnalgesicClass.nsaid_non_selective || r.cls == AnalgesicClass.nsaid_cox2_selective)
  let contraindicatedFlags := riskFlags.filter (fun f => f.level == RiskLevel.contraindicated)
  (if assessment.severity == PainSeverity.severe then [severePainFlagData] else [])
  ++ [escalatingFlagData]
  ++ (if hasOpioids then
      [{ severity := .critical,
         title := "Opioid Toxicity Signs",
         description := "Monitor for respiratory depression (RR <8), excessive sedation (unable to rouse), pinpoint pupils",
         action := "STOP opioid. Administer naloxone if respiratory depression. Call for urgent medical review." }]
      ++ (if patient.category == PatientCategory.elderly || decide (patient.age ≥ 65) then
          [{ severity := .warning,
             title := "Elderly Opioid Sensitivity",
             description := "Elderly patients have increased sensitivity to opioids",
             action := "Start with lower doses. Monitor closely for sedation and confusion." }]
         else [])
     else [])
  ++ (if hasNSAIDs then
      [{ severity := .warning,
         title := "NSAID Adverse Effects",
         description := "Monitor for GI bleeding (black stools, coffee-ground vomit), AKI (reduced urine output, rising creatinine), cardiovascular events",
         action := "Stop NSAID if adverse effects occur. Review renal function and GI symptoms regularly." }]
     else [])
  ++ (if assessment.painContext == PainContext.procedural then
      [{ severity := .warning,
         title := "Inadequate Procedural Analgesia",
         description := "Inadequate analgesia during procedures causes significant distress and may prevent procedure completion",
         action := "Ensure pre-emptive analgesia is given with adequate lead time. Have rescue analgesia available. Consider procedure postponement if pain uncontrolled." }]
     else [])
  ++ (if contraindicatedFlags.length > 0 then
      [{ severity := .critical,
         title := "Contraindicated Drug Classes Identified",
         description := "Patient has contraindications to: "
           ++ String.intercalate sepSemi (contraindicatedFlags.map (fun f => f.message)),
         action := "Ensure contraindicated drug classes are NOT prescribed. Document contraindications clearly." }]
     else [])

/-- Generate red flags based on clinical context (identifier of each
emitted flag comes from the supplied identifier source). -/
def generateRedFlags (ids : Nat → String) (assessment : DressingPainAssessment)
    (recommendations : List AnalgesicRecommendation) (riskFlags : List RiskFlag)
    (patient : PainPatientInfo) : List RedFlag :=
  attachRedIds ids 0 (generateRedFlagsData assessment recommendations riskFlags patient)

/-- Category text tested by the respiratory-risk clause. -/
def respiratoryCategory : String := "Respiratory"

/-- Check if monitoring frequency should be increased. -/
def shouldIncreaseMonitoring (assessment : DressingPainAssessment)
    (riskFlags : List RiskFlag) (patient : PainPatientInfo) : Bool :=
  if assessment.severity == PainSeverity.severe then true
  else if patient.category == PatientCategory.elderly then true
  else if riskFlags.any (fun f => f.category == respiratoryCategory) then true
  else if (riskFlags.filter (fun f =>
      f.level == RiskLevel.warning || f.level == RiskLevel.contraindicated)).length ≥ 2 then true
  else false

/-- Adult patient aged 40 (Scenario A fixture). -/
def patientAdult40 : PainPatientInfo := { age := 40, category := .adult }

/-- Comorbidity entry for peptic ulcer. -/
def pepticUlcerEntry : ComorbidityEntry := { condition := .peptic_ulcer }

/-- Severe nociceptive baseline assessment at rest. -/
def severeAssessment : DressingPainAssessment :=
  { score := 8, maxScore := 10, severity := .severe, painType := .nociceptive,
    painContext := .rest, location := "", description := "" }

/-- Mild nociceptive assessment at rest. -/
def mildAssessment : DressingPainAssessment :=
  { score := 2, maxScore := 10, severity := .mild, painType := .nociceptive,
    painContext := .rest, location := "", description := "" }

/-- Moderate neuropathic assessment whose description mentions spasm. -/
def spasmNeuropathicAssessment : DressingPainAssessment :=
  { score := 5, maxScore := 10, severity := .moderate, painType := .neuropathic,
    painContext := .rest, location := "", description := "Muscle SPASM at night" }

/-- Moderate nociceptive assessment whose description mentions spasm. -/
def spasmNociceptiveAssessment : DressingPainAssessment :=
  { spasmNeuropathicAssessment with painType := .nociceptive }

/-- Risk flag as emitted by the seizure-disorder catalog rule. -/
def seizureFlag : RiskFlag :=
  { id := "f1", level := .contraindicated, category := "Neurological",
    message := "Tramadol contraindicated in seizure disorder",
    affectedDrugClasses := [.weak_opioid],
    recommendation := "Avoid tramadol (lowers seizure threshold). Consider other opioids if needed. Gabapentinoids may be useful adjuvants." }

/-- Constant identifier supply used in concrete instantiations. -/
def constIds : Nat → String := fun _ => "flag-id"

/-- Stripping identifiers from attached risk flags recovers the data. -/
theorem attachIds_toData (ids : Nat → String) (n : Nat) (l : List RiskFlagData) :
    (attachIds ids n l).map RiskFlag.toData = l := by
  induction l generalizing n with
  | nil => rfl
  | cons d t ih =>
    show ({ level := d.level, category := d.category, message := d.message,
            affectedDrugClasses := d.affectedDrugClasses,
            recommendation := d.recommendation } : RiskFlagData)
        :: (attachIds ids (n + 1) t).map RiskFlag.toData = d :: t
    rw [ih]

/-- Attaching identifiers preserves the number of risk flags. -/
theorem attachIds_length (ids : Nat → String) (n : Nat) (l : List RiskFlagData) :
    (attachIds ids n l).length = l.length := by
  induction l generalizing n with
  | nil => rfl
  | cons d t ih => simp [attachIds, ih]

/-- Stripping identifiers from attached red flags recovers the data. -/
theorem attachRedIds_toData (ids : Nat → String) (n : Nat) (l : List RedFlagData) :
    (attachRedIds ids n l).map RedFlag.toData = l := by
  induction l generalizing n with
  | nil => rfl
  | cons d t ih =>
    show ({ severity := d.severity, title := d.title, description := d.description,
            action := d.action } : RedFlagData)
        :: (attachRedIds ids (n + 1) t).map RedFlag.toData = d :: t
    rw [ih]

/-- Membership in a conditionally emitted list segment. -/
theorem mem_ite_nil {α : Type} {c : Prop} [Decidable c] {l : List α} {x : α} :
    x ∈ (if c then l else []) ↔ c ∧ x ∈ l := by
  by_cases h : c <;> simp [h]

/-- The running maximum in checkDrugClassSafety never drops below its
starting level. -/
theorem levelFoldl_start_le (l : List RiskFlag) (h0 : RiskLevel) :
    levelIdx h0 ≤ levelIdx (l.foldl
      (fun h f => if levelIdx f.level > levelIdx h then f.level else h) h0) := by
  induction l generalizing h0 with
  | nil => exact le_refl _
  | cons g t ih =>
    simp only [List.foldl_cons]
    refine le_trans ?_ (ih (if levelIdx g.level > levelIdx h0 then g.level else h0))
    split <;> omega

/-- The running maximum in checkDrugClassSafety bounds every element. -/
theorem levelFoldl_mem_le (l : List RiskFlag) (h0 : RiskLevel) :
    ∀ f ∈ l, levelIdx f.level ≤ levelIdx (l.foldl
      (fun h f => if levelIdx f.level > levelIdx h then f.level else h) h0) := by
  induction l generalizing h0 with
  | nil => intro f hf; cases hf
  | cons g t ih =>
    intro f hf
    simp only [List.foldl_cons]
    rcases List.mem_cons.mp hf with h | h
    · subst h
      refine le_trans ?_ (levelFoldl_start_le t _)
      split <;> omega
    · exact ih _ f h

/-- The running maximum in checkDrugClassSafety is its start or attained. -/
theorem levelFoldl_attained (l : List RiskFlag) (h0 : RiskLevel) :
    l.foldl (fun h f => if levelIdx f.level > levelIdx h then f.level else h) h0 = h0
      ∨ (l.foldl (fun h f => if levelIdx f.level > levelIdx h then f.level else h) h0)
          ∈ l.map (fun f => f.level) := by
  induction l generalizing h0 with
  | nil => exact Or.inl rfl
  | cons g t ih =>
    simp only [List.foldl_cons, List.map_cons]
    rcases ih (if levelIdx g.level > levelIdx h0 then g.level else h0) with h | h
    · rw [h]
      split
    
      · exact Or.inr (List.mem_cons_self _ _)
      · exact Or.inl rfl
    · exact Or.inr (List.mem_cons_of_mem _ h)

/-- Boolean inequality on risk levels agrees with decidable inequality. -/
theorem riskLevel_bne_decide (a b : RiskLevel) : (a != b) = decide (a ≠ b) := by
  cases a <;> cases b <;> rfl

/-- Unfolding equation for checkDrugClassSafety. -/
theorem checkDrugClassSafety_eq (c : AnalgesicClass) (flags : List RiskFlag) :
    checkDrugClassSafety c flags =
      if (flags.filter (fun f => f.affectedDrugClasses.contains c)).isEmpty then
        { safe := true, level := RiskLevel.info, warnings := [] }
      else
        { safe := ((flags.filter (fun f => f.affectedDrugClasses.contains c)).foldl
            (fun h f => if levelIdx f.level > levelIdx h then f.level else h)
            RiskLevel.info) != RiskLevel.contraindicated,
          level := (flags.filter (fun f => f.affectedDrugClasses.contains c)).foldl
            (fun h f => if levelIdx f.level > levelIdx h then f.level else h)
            RiskLevel.info,
          warnings := (flags.filter (fun f => f.affectedDrugClasses.contains c)).map
            (fun f => f.message) } := rfl

/-- C2: for every drug class and flag list, checkDrugClassSafety returns as
level an upper bound of the levels of the flags affecting the class that is
either attained or the default info (so it is the maximum under
info < caution < warning < contraindicated, info when no flag matches),
returns safe exactly when that level is not contraindicated, and returns as
warnings the messages of exactly the matching flags, in order. -/
theorem checkDrugClassSafety_spec (c : AnalgesicClass) (flags : List RiskFlag) :
    (∀ f ∈ flags.filter (fun f => f.affectedDrugClasses.contains c),
      levelIdx f.level ≤ levelIdx (checkDrugClassSafety c flags).level) ∧
    ((checkDrugClassSafety c flags).level = RiskLevel.info ∨
      (checkDrugClassSafety c flags).level ∈
        (flags.filter (fun f => f.affectedDrugClasses.contains c)).map (fun f => f.level)) ∧
    (checkDrugClassSafety c flags).safe =
      decide ((checkDrugClassSafety c flags).level ≠ RiskLevel.contraindicated) ∧
    (checkDrugClassSafety c flags).warnings =
      (flags.filter (fun f => f.affectedDrugClasses.contains c)).map (fun f => f.message) := by
  cases hm : flags.filter (fun f => f.affectedDrugClasses.contains c) with
  | nil => rw [checkDrugClassSafety_eq, hm]; simp
  | cons g t =>
    rw [checkDrugClassSafety_eq, hm]
    split
    · next h => simp at h
    · exact ⟨levelFoldl_mem_le (g :: t) RiskLevel.info,
             levelFoldl_attained (g :: t) RiskLevel.info,
             riskLevel_bne_decide _ _, rfl⟩
/-- C8: two runs of generateRiskFlags with identical comorbidity list and
patient yield flag lists of the same length that agree pairwise, in order,
on the (level, category, message, affectedDrugClasses, recommendation)
tuple; only the generated identifiers may differ. -/
theorem generateRiskFlags_deterministic (ids1 ids2 : Nat → String)
    (com : List ComorbidityEntry) (p : PainPatientInfo) :
    (generateRiskFlags ids1 com p).length = (generateRiskFlags ids2 com p).length ∧
    (generateRiskFlags ids1 com p).map RiskFlag.toData =
      (generateRiskFlags ids2 com p).map RiskFlag.toData := by
  constructor
  · rw [generateRiskFlags, generateRiskFlags, attachIds_length, attachIds_length]
  · rw [generateRiskFlags, generateRiskFlags, attachIds_toData, attachIds_toData]

/-- C7: shouldIncreaseMonitoring is true exactly when the assessed severity
is severe, or the patient category is elderly, or some risk flag has the
Respiratory category, or at least two risk flags have level warning or
contraindicated; being a plain function of its inputs it has no side
effects. -/
theorem shouldIncreaseMonitoring_spec (a : DressingPainAssessment)
    (riskFlags : List RiskFlag) (patient : PainPatientInfo) :
    shouldIncreaseMonitoring a riskFlags patient = true ↔
      a.severity = PainSeverity.severe ∨
      patient.category = PatientCategory.elderly ∨
      (∃ f ∈ riskFlags, f.category = respiratoryCategory) ∨
      2 ≤ (riskFlags.filter (fun f =>
        f.level == RiskLevel.warning || f.level == RiskLevel.contraindicated)).length := by
  unfold shouldIncreaseMonitoring
  split_ifs with h1 h2 h3 h4 <;> simp_all [List.any_eq_true]

/-- C10: getPainSeverity returns none exactly for score 0; every negative
score, and every score strictly between 0 and 1, is classified as mild
(so out-of-contract scores below the documented range give mild, not none
and not an error). -/
theorem getPainSeverity_boundary :
    (∀ s : ℚ, getPainSeverity s = PainSeverity.none ↔ s = 0) ∧
    (∀ s : ℚ, s < 0 → getPainSeverity s = PainSeverity.mild) ∧
    (∀ s : ℚ, 0 < s → s < 1 → getPainSeverity s = PainSeverity.mild) ∧
    getPainSeverity (-1) = PainSeverity.mild := by
  refine ⟨?_, ?_, ?_, ?_⟩
  · intro s
    unfold getPainSeverity
    split_ifs with h1 h2 h3 <;> simp_all
  · intro s hs
    unfold getPainSeverity
    split_ifs with h1 h2 h3
    · exact absurd h1 (by linarith)
    · rfl
    · exact (h2 (by linarith)).elim
    · exact (h2 (by linarith)).elim
  · intro s hs0 hs1
    unfold getPainSeverity
    split_ifs with h1 h2 h3
    · exact absurd h1 (by linarith)
    · rfl
    · exact (h2 (by linarith)).elim
    · exact (h2 (by linarith)).elim
  · norm_num [getPainSeverity]

/-- Witness for C10: the score -1 satisfies the negativity hypothesis and
is classified as mild. -/
theorem getPainSeverity_boundary_witness :
    (-1 : ℚ) < 0 ∧ getPainSeverity (-1) = PainSeverity.mild :=
  ⟨by norm_num, getPainSeverity_boundary.2.1 (-1) (by norm_num)⟩

/-- C9: with no recommendations, no comorbidities, and an adult patient
younger than 65, every monitoring sub-block is not required and the other
monitoring list is empty; with additionally a non-severe, non-procedural
assessment and no contraindicated-level risk flags, generateRedFlags
returns exactly one flag, the critical escalating-pain flag. -/
theorem emptyInput_defaults (flags : List RiskFlag) (p : PainPatientInfo)
    (ids : Nat → String) (a : DressingPainAssessment)
    (_hcat : p.category = PatientCategory.adult) (_hage : p.age < 65)
    (hsev : a.severity ≠ PainSeverity.severe)
    (hctx : a.painContext ≠ PainContext.procedural)
    (hflags : ∀ f ∈ flags, f.level ≠ RiskLevel.contraindicated) :
    (generateMonitoringPlan [] flags p []).sedationMonitoring.required = false ∧
    (generateMonitoringPlan [] flags p []).respiratoryMonitoring.required = false ∧
    (generateMonitoringPlan [] flags p []).cardiovascularMonitoring.required = false ∧
    (generateMonitoringPlan [] flags p []).renalMonitoring.required = false ∧
    (generateMonitoringPlan [] flags p []).giProtection.required = false ∧
    (generateMonitoringPlan [] flags p []).otherMonitoring = [] ∧
    (generateRedFlags ids a [] flags p).map RedFlag.toData = [escalatingFlagData] := by
  refine ⟨rfl, rfl, rfl, rfl, rfl, rfl, ?_⟩
  rw [generateRedFlags, attachRedIds_toData]
  unfold generateRedFlagsData
  have h1 : (a.severity == PainSeverity.severe) = false := by
    cases hsv : a.severity <;> simp_all
  have h2 : (a.painContext == PainContext.procedural) = false := by
    cases hpc : a.painContext <;> simp_all
  have h3 : flags.filter (fun f => f.level == RiskLevel.contraindicated) = [] := by
    induction flags with
    | nil => rfl
    | cons g t ih =>
      have hg : (g.level == RiskLevel.contraindicated) = false := by
        have := hflags g (List.mem_cons_self _ _)
        cases hl : g.level <;> simp_all
      simp only [List.filter_cons, hg, Bool.false_eq_true, if_false]
      exact ih (fun f hf => hflags f (List.mem_cons_of_mem _ hf))
  simp [h1, h2, h3]

/-- Witness for C9: the adult patient aged 40 with a mild resting
assessment, no recommendations, no comorbidities and no risk flags
satisfies all hypotheses, and the red-flag list is exactly the
escalating-pain flag. -/
theorem emptyInput_defaults_witness :
    patientAdult40.category = PatientCategory.adult ∧ patientAdult40.age < 65 ∧
    mildAssessment.severity ≠ PainSeverity.severe ∧
    mildAssessment.painContext ≠ PainContext.procedural ∧
    (generateMonitoringPlan [] [] patientAdult40 []).sedationMonitoring.required = false ∧
    (generateRedFlags constIds mildAssessment [] [] patientAdult40).map RedFlag.toData =
      [escalatingFlagData] :=
  ⟨rfl, by norm_num [patientAdult40], by decide, by decide,
   (emptyInput_defaults [] patientAdult40 constIds mildAssessment rfl
      (by norm_num [patientAdult40]) (by decide) (by decide)
      (fun f hf => absurd hf (List.not_mem_nil f))).1,
   (emptyInput_defaults [] patientAdult40 constIds mildAssessment rfl
      (by norm_num [patientAdult40]) (by decide) (by decide)
      (fun f hf => absurd hf (List.not_mem_nil f))).2.2.2.2.2.2⟩

/-- C5 counterexample: for a severe assessment with no recommendations and
no risk flags, the first emitted red flag is the severe-pain warning, not
the escalating-pain critical flag, so the escalating flag is not always
first. -/
theorem redFlags_escalating_not_first :
    (generateRedFlags constIds severeAssessment [] [] patientAdult40).map
      (fun r => r.title) =
      ["Severe Pain", "Escalating Pain Despite Treatment"] ∧
    severePainFlagData.title ≠ escalatingFlagData.title :=
  ⟨rfl, by decide⟩

/-- C5 amended: generateRedFlags always emits the escalating-pain critical
flag; when the assessed severity is severe it comes second, immediately
after the severe-pain warning flag, and for every other severity it is the
first element of the returned list. -/
theorem redFlags_emission_order (ids : Nat → String) (a : DressingPainAssessment)
    (recs : List AnalgesicRecommendation) (flags : List RiskFlag)
    (p : PainPatientInfo) :
    (a.severity = PainSeverity.severe →
      ((generateRedFlags ids a recs flags p).map RedFlag.toData).take 2 =
        [severePainFlagData, escalatingFlagData]) ∧
    (a.severity ≠ PainSeverity.severe →
      ((generateRedFlags ids a recs flags p).map RedFlag.toData).take 1 =
        [escalatingFlagData]) := by
  rw [generateRedFlags, attachRedIds_toData]
  unfold generateRedFlagsData
  constructor
  · intro h
    rw [h]
    simp
  · intro h
    have h1 : (a.severity == PainSeverity.severe) = false := by
      cases hsv : a.severity <;> simp_all
    rw [h1]
    simp

/-- Witness for C5 amended: at the severe fixture the first two red flags
are the severe-pain warning then the escalating-pain flag. -/
theorem redFlags_emission_order_witness :
    ((generateRedFlags constIds severeAssessment [] [] patientAdult40).map
      RedFlag.toData).take 2 = [severePainFlagData, escalatingFlagData] :=
  (redFlags_emission_order constIds severeAssessment [] [] patientAdult40).1 rfl

/-- C6 counterexample: a neuropathic assessment whose description contains
the word spasm (case-insensitively) gets no muscle-relaxant adjunct, so the
proposal is not independent of pain type. -/
theorem muscleRelaxant_requires_nociceptive :
    strHolds (lowerStr spasmNeuropathicAssessment.description) spasmText = true ∧
    AnalgesicClass.adjuvant_muscle_relaxant ∉
      (generateAnalgesicRecommendations spasmNeuropathicAssessment [] patientAdult40).adjunctRecommendations.map
        (fun r => r.cls) :=
  ⟨rfl, by decide⟩

/-- C6 amended: for every assessment whose pain type is nociceptive and
whose description contains the word spasm as a case-insensitive substring,
the adjunct recommendations include the muscle relaxant with suitability
consider. -/
theorem muscleRelaxant_amended (a : DressingPainAssessment)
    (flags : List RiskFlag) (p : PainPatientInfo)
    (hpt : a.painType = PainType.nociceptive)
    (hdesc : strHolds (lowerStr a.description) spasmText = true) :
    ∃ r ∈ (generateAnalgesicRecommendations a flags p).adjunctRecommendations,
      r.cls = AnalgesicClass.adjuvant_muscle_relaxant ∧
      r.suitability = Suitability.consider := by
  refine ⟨{ cls := AnalgesicClass.adjuvant_muscle_relaxant, suitability := .consider,
            routes := [.oral],
            rationale := "May help if muscle spasm component present.",
            monitoringRequired := Option.some ["Sedation", "Weakness"] }, ?_, rfl, rfl⟩
  simp only [generateAnalgesicRecommendations]
  refine List.mem_append_right _ ?_
  rw [hpt, hdesc]
  simp

/-- Witness for C6 amended: the nociceptive spasm fixture satisfies both
hypotheses and receives the muscle-relaxant adjunct. -/
theorem muscleRelaxant_amended_witness :
    spasmNociceptiveAssessment.painType = PainType.nociceptive ∧
    strHolds (lowerStr spasmNociceptiveAssessment.description) spasmText = true ∧
    ∃ r ∈ (generateAnalgesicRecommendations spasmNociceptiveAssessment [] patientAdult40).adjunctRecommendations,
      r.cls = AnalgesicClass.adjuvant_muscle_relaxant ∧
      r.suitability = Suitability.consider :=
  ⟨rfl, rfl, muscleRelaxant_amended spasmNociceptiveAssessment [] patientAdult40 rfl rfl⟩

/-- Every primary recommendation is paracetamol, or one of the guarded
classes emitted only when it is not among the contraindicated classes. -/
theorem mem_primary_cases (a : DressingPainAssessment) (flags : List RiskFlag)
    (p : PainPatientInfo) (r : AnalgesicRecommendation)
    (hr : r ∈ (generateAnalgesicRecommendations a flags p).primaryRecommendations) :
    r.cls = AnalgesicClass.paracetamol ∨
    ((r.cls = AnalgesicClass.nsaid_non_selective ∨
      r.cls = AnalgesicClass.weak_opioid ∨
      r.cls = AnalgesicClass.strong_opioid) ∧
      (getContraindicatedClasses flags).contains r.cls = false) := by
  simp only [generateAnalgesicRecommendations, step1Recs, step2Recs, step3Recs,
    List.singleton_append, List.mem_append, mem_ite_nil,
    List.mem_singleton, List.mem_cons, List.not_mem_nil, or_false] at hr
  rcases hr with (⟨-, rfl | ⟨hg, rfl⟩⟩ | ⟨-, hg, rfl⟩) | ⟨-, hg, rfl⟩
  · exact Or.inl rfl
  · simp only [Bool.and_eq_true, Bool.not_eq_true'] at hg
    exact Or.inr ⟨Or.inl rfl, hg.1⟩
  · simp only [Bool.not_eq_true'] at hg
    exact Or.inr ⟨Or.inr (Or.inl rfl), hg⟩
  · simp only [Bool.not_eq_true'] at hg
    exact Or.inr ⟨Or.inr (Or.inr rfl), hg⟩

/-- Every adjunct recommendation is one of the four adjunct classes. -/
theorem mem_adjunct_cases (a : DressingPainAssessment) (flags : List RiskFlag)
    (p : PainPatientInfo) (r : AnalgesicRecommendation)
    (hr : r ∈ (generateAnalgesicRecommendations a flags p).adjunctRecommendations) :
    r.cls = AnalgesicClass.adjuvant_anticonvulsant ∨
    r.cls = AnalgesicClass.adjuvant_antidepressant ∨
    r.cls = AnalgesicClass.topical_analgesic ∨
    r.cls = AnalgesicClass.adjuvant_muscle_relaxant := by
  simp only [generateAnalgesicRecommendations, List.mem_append, mem_ite_nil,
    List.mem_singleton, List.mem_cons, List.not_mem_nil, or_false] at hr
  rcases hr with (⟨-, rfl | rfl⟩ | ⟨-, rfl⟩) | ⟨-, rfl⟩
  · exact Or.inl rfl
  · exact Or.inr (Or.inl rfl)
  · exact Or.inr (Or.inr (Or.inl rfl))
  · exact Or.inr (Or.inr (Or.inr rfl))

/-- C1: for the patient aged 40 with the single comorbidity peptic ulcer,
generateRiskFlags produces exactly one flag, the contraindicated
Gastrointestinal flag affecting the two NSAID classes; and for every pain
assessment of any severity evaluated against those flags, neither the
primary nor the adjunct recommendations contain either NSAID class. -/
theorem scenarioA_gi_flag_and_nsaid_exclusion (ids : Nat → String) :
    (generateRiskFlags ids [pepticUlcerEntry] patientAdult40).map RiskFlag.toData =
      [{ level := RiskLevel.contraindicated, category := "Gastrointestinal",
         message := "NSAIDs contraindicated due to GI risk",
         affectedDrugClasses := [AnalgesicClass.nsaid_non_selective, AnalgesicClass.nsaid_cox2_selective],
         recommendation := "Avoid all NSAIDs. Consider paracetamol as first-line. If NSAID essential, use COX-2 selective with PPI cover after specialist review." }] ∧
    ∀ (a : DressingPainAssessment) (q : PainPatientInfo),
      AnalgesicClass.nsaid_non_selective ∉
        (generateAnalgesicRecommendations a
          (generateRiskFlags ids [pepticUlcerEntry] patientAdult40) q).primaryRecommendations.map
          (fun r => r.cls) ∧
      AnalgesicClass.nsaid_cox2_selective ∉
        (generateAnalgesicRecommendations a
          (generateRiskFlags ids [pepticUlcerEntry] patientAdult40) q).primaryRecommendations.map
          (fun r => r.cls) ∧
      AnalgesicClass.nsaid_non_selective ∉
        (generateAnalgesicRecommendations a
          (generateRiskFlags ids [pepticUlcerEntry] patientAdult40) q).adjunctRecommendations.map
          (fun r => r.cls) ∧
      AnalgesicClass.nsaid_cox2_selective ∉
        (generateAnalgesicRecommendations a
          (generateRiskFlags ids [pepticUlcerEntry] patientAdult40) q).adjunctRecommendations.map
          (fun r => r.cls) := by
  have hcontra : getContraindicatedClasses (generateRiskFlags ids [pepticUlcerEntry] patientAdult40) =
      [AnalgesicClass.nsaid_non_selective, AnalgesicClass.nsaid_cox2_selective] := rfl
  constructor
  · rw [generateRiskFlags, attachIds_toData]
    rfl
  · intro a q
    refine ⟨?_, ?_, ?_, ?_⟩
    · intro hmem
      obtain ⟨r, hr, hcls⟩ := List.mem_map.mp hmem
      rcases mem_primary_cases a _ q r hr with h | ⟨-, hc⟩
      · rw [hcls] at h
        exact absurd h (by decide)
      · rw [hcls, hcontra] at hc
        exact absurd hc (by decide)
    · intro hmem
      obtain ⟨r, hr, hcls⟩ := List.mem_map.mp hmem
      rcases mem_primary_cases a _ q r hr with h | ⟨h | h | h, -⟩ <;> rw [hcls] at h <;>
        exact absurd h (by decide)
    · intro hmem
      obtain ⟨r, hr, hcls⟩ := List.mem_map.mp hmem
      rcases mem_adjunct_cases a _ q r hr with h | h | h | h <;> rw [hcls] at h <;>
        exact absurd h (by decide)
    · intro hmem
      obtain ⟨r, hr, hcls⟩ := List.mem_map.mp hmem
      rcases mem_adjunct_cases a _ q r hr with h | h | h | h <;> rw [hcls] at h <;>
        exact absurd h (by decide)

/-- Updating only the severity leaves the step-1 block unchanged. -/
theorem step1Recs_update (a : DressingPainAssessment) (s : PainSeverity)
    (flags : List RiskFlag) :
    step1Recs { a with severity := s } flags = step1Recs a flags := rfl

/-- The primary list of a severity-updated assessment is the three step
blocks, each gated by the WHO step of the new severity. -/
theorem primaryRecommendations_update_eq (a : DressingPainAssessment)
    (s : PainSeverity) (riskFlags : List RiskFlag) (patient : PainPatientInfo) :
    (generateAnalgesicRecommendations { a with severity := s } riskFlags
      patient).primaryRecommendations =
      (if getWHOStep s ≥ 1 then step1Recs { a with severity := s } riskFlags else [])
      ++ (if getWHOStep s ≥ 2 then step2Recs riskFlags else [])
      ++ (if getWHOStep s ≥ 3 then step3Recs riskFlags else []) := rfl

/-- Weakening the guard of a conditional segment preserves membership. -/
theorem mem_cond_mono {α : Type} {P Q : Prop} [Decidable P] [Decidable Q]
    (h : P → Q) {l : List α} {x : α} (hx : x ∈ if P then l else []) :
    x ∈ (if Q then l else []) := by
  rcases mem_ite_nil.mp hx with ⟨hp, hxl⟩
  exact mem_ite_nil.mpr ⟨h hp, hxl⟩

/-- C3: the WHO ladder is cumulative: with the same risk flags and patient,
every primary recommendation class generated at a severity with a lower (or
equal) WHO step is also generated at a severity with a higher step; in
particular the severe list is a superset by class of the moderate list. -/
theorem whoLadder_monotone (a : DressingPainAssessment) (flags : List RiskFlag)
    (p : PainPatientInfo) (s1 s2 : PainSeverity)
    (hstep : getWHOStep s1 ≤ getWHOStep s2) (c : AnalgesicClass)
    (hc : c ∈ (generateAnalgesicRecommendations { a with severity := s1 } flags
      p).primaryRecommendations.map (fun r => r.cls)) :
    c ∈ (generateAnalgesicRecommendations { a with severity := s2 } flags
      p).primaryRecommendations.map (fun r => r.cls) := by
  rw [primaryRecommendations_update_eq, step1Recs_update] at hc ⊢
  simp only [List.map_append, List.mem_append,
    apply_ite (List.map (fun r : AnalgesicRecommendation => r.cls)),
    List.map_nil] at hc ⊢
  rcases hc with (h | h) | h
  · exact Or.inl (Or.inl (mem_cond_mono (fun hh => le_trans hh hstep) h))
  · exact Or.inl (Or.inr (mem_cond_mono (fun hh => le_trans hh hstep) h))
  · exact Or.inr (mem_cond_mono (fun hh => le_trans hh hstep) h)

/-- Witness for C3: moderate-to-severe at the concrete fixture keeps the
weak opioid recommended at the moderate step in the severe list. -/
theorem whoLadder_monotone_witness :
    getWHOStep PainSeverity.moderate ≤ getWHOStep PainSeverity.severe ∧
    AnalgesicClass.weak_opioid ∈ (generateAnalgesicRecommendations
      { mildAssessment with severity := PainSeverity.severe } []
      patientAdult40).primaryRecommendations.map (fun r => r.cls) :=
  ⟨by decide, whoLadder_monotone mildAssessment [] patientAdult40
    PainSeverity.moderate PainSeverity.severe (by decide)
    AnalgesicClass.weak_opioid (by decide)⟩

/-- Empty procedure description used in concrete instantiations. -/
def emptyText : String := ""

/-- C4 (code defect): with a flag contraindicating only the weak opioid, as
the seizure-disorder catalog rule emits, and a moderate-level procedure,
generateProceduralPainPlan still adds the weak opioid to the pre-emptive
recommendations, because its guard tests the strong opioid rather than the
tier being recommended. -/
theorem proceduralPlan_weakOpioid_gate_defect :
    (generateProceduralPainPlan ProcedureType.wound_dressing emptyText
      mildAssessment [seizureFlag] patientAdult40).anticipatedPainLevel =
        PainSeverity.moderate ∧
    (generateProceduralPainPlan ProcedureType.wound_dressing emptyText
      mildAssessment [seizureFlag] patientAdult40).preEmptiveAnalgesia.recommendations.map
      (fun r => r.cls) = [AnalgesicClass.paracetamol, AnalgesicClass.weak_opioid] ∧
    AnalgesicClass.weak_opioid ∈ getContraindicatedClasses [seizureFlag] :=
  ⟨rfl, rfl, by decide⟩
